import Mathlib

/-!
Shallow embedding of the `ts-result` library (`src/index.ts`): a tagged
result value (`ok` / `err` constructors) and the exception-to-result
bridge `tryCatch`.

Modelling conventions:
* JavaScript runtime values are the inductive `JSValue`.  An object that
  exposes a `then` property (a promise or other thenable) is the
  `thenable` constructor, carrying its eventual settlement
  (`PromiseState`).  Class/constructor-function values are `classVal`,
  carrying the class name, the list of names on its prototype's
  prototype chain (so `C.prototype instanceof Error` is membership of
  "Error" in that list), and an index into a constructor environment
  giving the semantics of `new C(...args)`.
* Error objects are `JSError` records (name, message, optional stack);
  `new Error(msg)` is `newError msg`, whose stack is present, standing
  for the trace captured at the construction site.
* A zero-argument computation is modelled by the outcome of its single
  invocation: `Except JSValue JSValue` (`.error t` = it threw `t`).
  Likewise the error transformer is `JSError → Except JSValue JSError`.
* `tryCatch`'s three possible behaviours are `TCOutcome`: return a plain
  result synchronously, return a deferred result (which later resolves
  with a result or rejects with a thrown value), or itself throw.
-/

namespace TsResult

/-- A JavaScript `Error`-capability object: name, message and an optional
captured stack trace. -/
structure JSError where
  name : String
  message : String
  stack : Option String
deriving Repr, DecidableEq

/-- `new Error(message)`: constructs a generic error whose stack trace is
captured (modelled as present). -/
def newError (message : String) : JSError :=
  ⟨"Error", message, some ("Error: " ++ message)⟩

mutual

/-- A JavaScript runtime value, at the granularity the library inspects:
primitive values, `null`/`undefined`, error objects, class/constructor
functions (`classVal name protoChainNames classId`), objects exposing a
`then` property together with their eventual settlement (`thenable`),
and other plain objects. -/
inductive JSValue : Type where
  | undef : JSValue
  | nullv : JSValue
  | boolean : Bool → JSValue
  | number : Int → JSValue
  | string : String → JSValue
  | errObj : JSError → JSValue
  | classVal : String → List String → Nat → JSValue
  | thenable : PromiseState → JSValue
  | plainObj : JSValue

/-- The eventual settlement of a thenable: it fulfills with a value
(possibly itself a thenable, to be unwrapped) or rejects with a value. -/
inductive PromiseState : Type where
  | fulfilled : JSValue → PromiseState
  | rejected : JSValue → PromiseState

end

/-- Semantics of `new C(...args)` for the class reference `classId`
carried by a `classVal`: the constructor environment maps it and the
argument list to the constructed error instance. -/
def ConstructorEnv : Type := Nat → List JSValue → JSError

/-- JavaScript `typeof v`. -/
def jsTypeof : JSValue → String
  | .undef => "undefined"
  | .nullv => "object"
  | .boolean _ => "boolean"
  | .number _ => "number"
  | .string _ => "string"
  | .errObj _ => "object"
  | .classVal _ _ _ => "function"
  | .thenable _ => "object"
  | .plainObj => "object"

/-- `Error.prototype.toString`: "name: message", dropping an empty part. -/
def errorToString (e : JSError) : String :=
  if e.name = "" then e.message
  else if e.message = "" then e.name
  else e.name ++ ": " ++ e.message

/-- Coercion of a value to text, as in a template literal. -/
def jsToString : JSValue → String
  | .undef => "undefined"
  | .nullv => "null"
  | .boolean b => if b then "true" else "false"
  | .number n => toString n
  | .string s => s
  | .errObj e => errorToString e
  | .classVal n _ _ => "class " ++ n
  | .thenable _ => "[object Object]"
  | .plainObj => "[object Object]"

/-- `v instanceof Error`. -/
def instanceofError : JSValue → Bool
  | .errObj _ => true
  | _ => false

/-- `typeof v === 'string'`. -/
def isString : JSValue → Bool
  | .string _ => true
  | _ => false

/-- `v === null`. -/
def isNull : JSValue → Bool
  | .nullv => true
  | _ => false

/-- `'then' in v`: the value exposes a `then` property. -/
def hasThenProp : JSValue → Bool
  | .thenable _ => true
  | _ => false

/-- Instances of the class value satisfy the error capability, i.e.
`new C(...) instanceof Error`: the class is `Error` itself or has
`Error` on its prototype chain.  (Not the check the code performs; used
to state spec-level claims about which constructors are error-capable.) -/
def instancesAreErrors : JSValue → Bool
  | .classVal n chain _ => n == "Error" || chain.contains "Error"
  | _ => false

/-- The result object `{ ok, val, err }`.  `val` is `JSValue.undef` when
the field is `undefined`; `err` is `none` when the field is `undefined`. -/
structure ResultV where
  ok : Bool
  val : JSValue
  err : Option JSError

/-- `ok(val)`: `{ ok: true, val, err: undefined }`. -/
def ok (val : JSValue) : ResultV :=
  ⟨true, val, none⟩

/-- `err(stringOrErrOrErrClass, ...args)`.  Dispatches on the first
argument exactly as the source: `typeof === 'string'`, then
`instanceof Error`, then `typeof === 'function' &&
prototype instanceof Error`; otherwise throws the misuse error
(`.error` carries the thrown value). -/
def err (env : ConstructorEnv) :
    JSValue → List JSValue → Except JSValue ResultV
  | .string s, _ => .ok ⟨false, .undef, some (newError s)⟩
  | .errObj e, _ => .ok ⟨false, .undef, some e⟩
  | .classVal _ chain k, args =>
      if chain.contains "Error" then
        .ok ⟨false, .undef, some (env k args)⟩
      else
        .error (.errObj (newError
          "err expects a string, Error, or Error class as an argument"))
  | _, _ =>
      .error (.errObj (newError
        "err expects a string, Error, or Error class as an argument"))

/-- The normalization inside `makeErrorResult`:
`e instanceof Error ? e : new Error(...)`. -/
def normalizeThrown (e : JSValue) : JSError :=
  match e with
  | .errObj er => er
  | _ => newError
      ("Unexpected throw value '" ++ jsToString e ++ "' of type " ++ jsTypeof e)

/-- `makeErrorResult(e)`: normalize the raw thrown/rejected value, pass
it through the error transformer, and wrap the transformer's output via
`err`.  A throw from the transformer is not caught (it propagates as
`.error`). -/
def makeErrorResult (env : ConstructorEnv)
    (errorTransformer : JSError → Except JSValue JSError) (e : JSValue) :
    Except JSValue ResultV :=
  match errorTransformer (normalizeThrown e) with
  | .ok e2 => err env (.errObj e2) []
  | .error t => .error t

/-- The structural deferred-value check on the return value:
`typeof res === 'object' && res !== null && 'then' in res`. -/
def isDeferredValue (res : JSValue) : Bool :=
  jsTypeof res == "object" && !(isNull res) && hasThenProp res

/-- `Promise.resolve(v)` settlement: fulfillment through a thenable is
unwrapped recursively; a rejection reason is passed as-is. -/
def settle : JSValue → PromiseState
  | .thenable (.fulfilled v) => settle v
  | .thenable (.rejected e) => .rejected e
  | .undef => .fulfilled .undef
  | .nullv => .fulfilled .nullv
  | .boolean b => .fulfilled (.boolean b)
  | .number n => .fulfilled (.number n)
  | .string s => .fulfilled (.string s)
  | .errObj e => .fulfilled (.errObj e)
  | .classVal n c k => .fulfilled (.classVal n c k)
  | .plainObj => .fulfilled .plainObj

/-- A deferred Result: the returned promise eventually resolves with a
result value or rejects with a thrown value. -/
inductive DeferredResult : Type where
  | resolves : ResultV → DeferredResult
  | rejects : JSValue → DeferredResult

/-- The observable behaviour of a `tryCatch` call: return a plain result
synchronously, return a deferred result, or itself throw. -/
inductive TCOutcome : Type where
  | sync : ResultV → TCOutcome
  | async : DeferredResult → TCOutcome
  | thrown : JSValue → TCOutcome

/-- `Promise.resolve(res).then((val) => ok(val)).catch((e) => onRejected(e))`:
on fulfillment wrap the settled payload with `ok`; on rejection run the
handler, whose own throw rejects the resulting promise. -/
def promiseThenCatch (res : JSValue)
    (onRejected : JSValue → Except JSValue ResultV) : DeferredResult :=
  match settle res with
  | .fulfilled v => .resolves (ok v)
  | .rejected e =>
      match onRejected e with
      | .ok r => .resolves r
      | .error t => .rejects t

/-- `tryCatch(expression, errorTransformer)`: invoke the computation once;
a returned deferred value yields a deferred result, any other return
value is wrapped with `ok` synchronously, and a synchronous throw is
routed through `makeErrorResult` (whose own throw propagates). -/
def tryCatch (env : ConstructorEnv) (expression : Except JSValue JSValue)
    (errorTransformer : JSError → Except JSValue JSError) : TCOutcome :=
  match expression with
  | .ok res =>
      if isDeferredValue res then
        .async (promiseThenCatch res (makeErrorResult env errorTransformer))
      else
        .sync (ok res)
  | .error e =>
      match makeErrorResult env errorTransformer e with
      | .ok r => .sync r
      | .error t => .thrown t

/-- The default error transformer `(e) => e`. -/
def defaultTransformer : JSError → Except JSValue JSError :=
  fun e => .ok e

/-- A concrete constructor environment for instantiating theorems: every
class constructs an error named after itself. -/
def env0 : ConstructorEnv :=
  fun k _ => ⟨"CustomError", toString k, some "CustomError"⟩

/-- A transformer that replaces every error, used to contrast transformers. -/
def trAlt : JSError → Except JSValue JSError :=
  fun _ => .ok (newError "replaced")

/-- The deferred-value check of the source coincides with exposing a
`then` property: a thenable is a non-null value of type "object". -/
theorem isDeferredValue_eq_hasThenProp (res : JSValue) :
    isDeferredValue res = hasThenProp res := by
  cases res <;> rfl

/-- Whenever `err` returns a result (rather than throwing), the result is
a failure-shaped record. -/
theorem err_ok_shape (env : ConstructorEnv) (a : JSValue) (args : List JSValue)
    (r : ResultV) (h : err env a args = .ok r) :
    r.ok = false ∧ r.err.isSome = true ∧ r.val = .undef := by
  cases a with
  | string s => cases h; exact ⟨rfl, rfl, rfl⟩
  | errObj e => cases h; exact ⟨rfl, rfl, rfl⟩
  | classVal n chain k =>
      by_cases hc : chain.contains "Error"
      · simp only [err, if_pos hc] at h; cases h; exact ⟨rfl, rfl, rfl⟩
      · simp only [err, if_neg hc] at h; cases h
  | undef => cases h
  | nullv => cases h
  | boolean b => cases h
  | number n => cases h
  | thenable st => cases h
  | plainObj => cases h

/-- Whenever `makeErrorResult` returns a result, it is the failure result
wrapping the transformer's output on the normalized error. -/
theorem makeErrorResult_ok (env : ConstructorEnv)
    (tr : JSError → Except JSValue JSError) (e : JSValue) (r : ResultV)
    (h : makeErrorResult env tr e = .ok r) :
    ∃ e2, tr (normalizeThrown e) = .ok e2 ∧ r = ⟨false, .undef, some e2⟩ := by
  unfold makeErrorResult at h
  cases ht : tr (normalizeThrown e) with
  | ok e2 => rw [ht] at h; simp only [err] at h; cases h; exact ⟨e2, rfl, rfl⟩
  | error t => rw [ht] at h; cases h

/-- With a returned deferred value, `tryCatch` returns the chained
deferred result. -/
theorem tryCatch_ok_deferred (env : ConstructorEnv)
    (tr : JSError → Except JSValue JSError) (res : JSValue)
    (hd : isDeferredValue res = true) :
    tryCatch env (.ok res) tr =
      .async (promiseThenCatch res (makeErrorResult env tr)) := by
  simp [tryCatch, hd]

/-- With a returned non-deferred value, `tryCatch` returns `ok`
synchronously. -/
theorem tryCatch_ok_sync (env : ConstructorEnv)
    (tr : JSError → Except JSValue JSError) (res : JSValue)
    (hd : isDeferredValue res = false) :
    tryCatch env (.ok res) tr = .sync (ok res) := by
  simp [tryCatch, hd]

/-- `makeErrorResult` consults the transformer only at the normalized
error. -/
theorem makeErrorResult_congr (env : ConstructorEnv)
    (tr1 tr2 : JSError → Except JSValue JSError) (e : JSValue)
    (h : tr1 (normalizeThrown e) = tr2 (normalizeThrown e)) :
    makeErrorResult env tr1 e = makeErrorResult env tr2 e := by
  unfold makeErrorResult
  rw [h]

/-- Claim C1: a computation returning a value that exposes a then-like
method yields a deferred Result — resolving to `ok` of the settled
payload, or on rejection to the normalized-and-transformed failure —
while a computation returning a value without a then-like method yields
`ok` of that value immediately and synchronously. -/
theorem tryCatch_deferred_vs_sync_paths (env : ConstructorEnv)
    (tr : JSError → Except JSValue JSError) (res : JSValue) :
    (hasThenProp res = false → tryCatch env (.ok res) tr = .sync (ok res)) ∧
    (hasThenProp res = true →
      (∀ w, settle res = .fulfilled w →
          tryCatch env (.ok res) tr = .async (.resolves (ok w))) ∧
      (∀ e e2, settle res = .rejected e → tr (normalizeThrown e) = .ok e2 →
          tryCatch env (.ok res) tr =
            .async (.resolves ⟨false, .undef, some e2⟩))) := by
  constructor
  · intro h
    exact tryCatch_ok_sync env tr res
      (by rw [isDeferredValue_eq_hasThenProp, h])
  · intro h
    have hd : isDeferredValue res = true := by
      rw [isDeferredValue_eq_hasThenProp, h]
    constructor
    · intro w hw
      rw [tryCatch_ok_deferred env tr res hd]
      simp only [promiseThenCatch, hw]
    · intro e e2 hs htr
      rw [tryCatch_ok_deferred env tr res hd]
      simp only [promiseThenCatch, hs, makeErrorResult, htr, err]

/-- Witness for C1: a thenable fulfilled with the string "x" yields a
deferred Result resolving to `ok "x"`. -/
theorem tryCatch_deferred_vs_sync_paths_witness :
    tryCatch env0 (.ok (.thenable (.fulfilled (.string "x"))))
        defaultTransformer
      = .async (.resolves (ok (.string "x"))) :=
  ((tryCatch_deferred_vs_sync_paths env0 defaultTransformer
      (.thenable (.fulfilled (.string "x")))).2 rfl).1 (.string "x") rfl

/-- Claim C2: when the error transformer itself throws on the normalized
error, `tryCatch` does not catch that second exception: on the
synchronous-throw path the `tryCatch` call itself throws it, and on the
asynchronous-reject path the returned deferred Result rejects with it. -/
theorem tryCatch_transformer_rethrow_propagates (env : ConstructorEnv)
    (tr : JSError → Except JSValue JSError) (e t : JSValue) :
    (tr (normalizeThrown e) = .error t →
        tryCatch env (.error e) tr = .thrown t) ∧
    (∀ res, hasThenProp res = true → settle res = .rejected e →
        tr (normalizeThrown e) = .error t →
        tryCatch env (.ok res) tr = .async (.rejects t)) := by
  constructor
  · intro h
    rw [tryCatch]
    simp only [makeErrorResult, h]
  · intro res hres hs h
    have hd : isDeferredValue res = true := by
      rw [isDeferredValue_eq_hasThenProp, hres]
    rw [tryCatch_ok_deferred env tr res hd]
    simp only [promiseThenCatch, hs, makeErrorResult, h]

/-- Witness for C2: a transformer that rethrows makes a synchronous throw
propagate out of `tryCatch` itself. -/
theorem tryCatch_transformer_rethrow_propagates_witness :
    tryCatch env0 (.error (.errObj (newError "other")))
        (fun e => .error (.errObj e))
      = .thrown (.errObj (newError "other")) :=
  (tryCatch_transformer_rethrow_propagates env0 (fun e => .error (.errObj e))
      (.errObj (newError "other")) (.errObj (newError "other"))).1 rfl

/-- Claim C3: a raised or rejected value that is already an error object
is passed to the transformer as-is; any other value is normalized to a
new generic error whose message is exactly
"Unexpected throw value '<v>' of type <typeof v>", built from the
value's textual rendering and runtime type tag, and on both the
synchronous-throw and asynchronous-reject paths the transformer receives
exactly the normalized error and its output determines the outcome. -/
theorem tryCatch_normalizes_thrown_values (env : ConstructorEnv)
    (tr : JSError → Except JSValue JSError) :
    (∀ er : JSError, normalizeThrown (.errObj er) = er) ∧
    (∀ v : JSValue, instanceofError v = false →
        normalizeThrown v = newError
          ("Unexpected throw value '" ++ jsToString v ++ "' of type "
            ++ jsTypeof v)) ∧
    (∀ e, tryCatch env (.error e) tr =
        match tr (normalizeThrown e) with
        | .ok e2 => .sync ⟨false, .undef, some e2⟩
        | .error t => .thrown t) ∧
    (∀ res e, hasThenProp res = true → settle res = .rejected e →
        tryCatch env (.ok res) tr =
          .async (match tr (normalizeThrown e) with
                  | .ok e2 => .resolves ⟨false, .undef, some e2⟩
                  | .error t => .rejects t)) := by
  refine ⟨fun er => rfl, ?_, ?_, ?_⟩
  · intro v hv
    cases v <;> first | rfl | (exact absurd hv (by rw [instanceofError]; simp))
  · intro e
    rw [tryCatch]
    cases ht : tr (normalizeThrown e) <;>
      simp only [makeErrorResult, ht, err]
  · intro res e hres hs
    have hd : isDeferredValue res = true := by
      rw [isDeferredValue_eq_hasThenProp, hres]
    rw [tryCatch_ok_deferred env tr res hd]
    cases ht : tr (normalizeThrown e) <;>
      simp only [promiseThenCatch, hs, makeErrorResult, ht, err]

/-- Witness for C3: rejecting with the plain string "x" synthesizes the
exact message "Unexpected throw value 'x' of type string". -/
theorem tryCatch_normalizes_thrown_values_witness :
    (normalizeThrown (.string "x")).message
      = "Unexpected throw value 'x' of type string" := by
  rw [(tryCatch_normalizes_thrown_values env0 defaultTransformer).2.1
    (.string "x") rfl]
  rfl

/-- Counterexample for C4: the generic error class `Error` itself is a
constructor whose instances satisfy the error capability, yet its
prototype is not an instance of `Error` (its prototype chain is only
`Object`), so the source's `prototype instanceof Error` check fails and
`err` raises the misuse error instead of constructing an instance. -/
theorem err_errorClassItself_rejected :
    instancesAreErrors (.classVal "Error" ["Object"] 0) = true ∧
    err env0 (.classVal "Error" ["Object"] 0) [.string "m"] =
      .error (.errObj (newError
        "err expects a string, Error, or Error class as an argument")) :=
  ⟨rfl, rfl⟩

/-- Claim C4 (amended): for every constructor whose prototype is itself
an instance of the error type — i.e. every proper subclass of the
generic error type, which excludes the generic error type itself —
`err` applied to it with arguments yields a Failure-variant result
wrapping the instance built by invoking the constructor with those
arguments, and never raises the misuse error. -/
theorem err_error_subclass (env : ConstructorEnv) (n : String)
    (chain : List String) (k : Nat) (args : List JSValue)
    (h : chain.contains "Error" = true) :
    err env (.classVal n chain k) args =
      .ok ⟨false, .undef, some (env k args)⟩ := by
  simp only [err, if_pos h]

/-- Witness for C4: a proper error subclass constructs its instance. -/
theorem err_error_subclass_witness :
    err env0 (.classVal "TestError" ["Error", "Object"] 7) [.string "m"] =
      .ok ⟨false, .undef, some (env0 7 [.string "m"])⟩ :=
  err_error_subclass env0 "TestError" ["Error", "Object"] 7 [.string "m"] rfl

/-- Claim C5: for every first argument that is not a string, not an
error object, and not a constructor whose instances satisfy the error
capability, `err` throws immediately — it never returns a result — with
the exact message "err expects a string, Error, or Error class as an
argument". -/
theorem err_misuse_raises (env : ConstructorEnv) (v : JSValue)
    (args : List JSValue) (h1 : isString v = false)
    (h2 : instanceofError v = false) (h3 : instancesAreErrors v = false) :
    err env v args = .error (.errObj (newError
      "err expects a string, Error, or Error class as an argument")) := by
  cases v with
  | string s => simp [isString] at h1
  | errObj e => simp [instanceofError] at h2
  | classVal n chain k =>
      simp only [instancesAreErrors, Bool.or_eq_false_iff] at h3
      simp [err, h3.2]
      simpa using h3.2
  | undef => rfl
  | nullv => rfl
  | boolean b => rfl
  | number m => rfl
  | thenable st => rfl
  | plainObj => rfl

/-- Witness for C5: `err(1)` raises the misuse error. -/
theorem err_misuse_raises_witness :
    err env0 (.number 1) [] = .error (.errObj (newError
      "err expects a string, Error, or Error class as an argument")) :=
  err_misuse_raises env0 (.number 1) [] rfl rfl rfl

/-- Claim C6: when the computation throws synchronously and the
transformer returns a replacement error, `tryCatch` returns — as a
plain, non-deferred result, immediately — the Failure-variant result
wrapping the transformer's output on the normalized thrown value. -/
theorem tryCatch_sync_throw_immediate (env : ConstructorEnv)
    (tr : JSError → Except JSValue JSError) (e : JSValue) (e2 : JSError)
    (h : tr (normalizeThrown e) = .ok e2) :
    tryCatch env (.error e) tr = .sync ⟨false, .undef, some e2⟩ := by
  rw [tryCatch]
  simp only [makeErrorResult, h, err]

/-- Witness for C6: a synchronous throw of an error object with the
default transformer yields that failure result synchronously. -/
theorem tryCatch_sync_throw_immediate_witness :
    tryCatch env0 (.error (.errObj (newError "x"))) defaultTransformer =
      .sync ⟨false, .undef, some (newError "x")⟩ :=
  tryCatch_sync_throw_immediate env0 defaultTransformer
    (.errObj (newError "x")) (newError "x") rfl

/-- Claim C7: for every already-constructed error object `e`, `err e`
yields the Failure-variant result whose error is `e` itself — the very
same value, with no copy made and the original trace field untouched. -/
theorem err_error_object_identity (env : ConstructorEnv) (e : JSError)
    (args : List JSValue) :
    err env (.errObj e) args = .ok ⟨false, .undef, some e⟩ :=
  rfl

/-- Claim C8: for every string `m`, `err m` yields a Failure-variant
result wrapping a newly constructed generic error whose message equals
`m` and whose trace is present. -/
theorem err_string_new_error (env : ConstructorEnv) (m : String)
    (args : List JSValue) :
    err env (.string m) args = .ok ⟨false, .undef, some (newError m)⟩ ∧
    (newError m).message = m ∧ (newError m).stack.isSome = true :=
  ⟨rfl, rfl, rfl⟩

/-- The variant invariant of the result shape: the tag alone decides
which of the payload and error fields is populated, and the other is
absent. -/
def resultInv (r : ResultV) : Prop :=
  (r.ok = true ∧ r.err = none) ∨
  (r.ok = false ∧ r.err.isSome = true ∧ r.val = .undef)

/-- Claim C9: every result produced by `ok`, by `err`, or by `tryCatch`
(synchronously or inside the deferred result) satisfies the variant
invariant — exactly one of payload and error populated, determined
solely by the tag; in particular `ok v` is the record with tag true,
payload `v` and error absent. -/
theorem result_variant_invariant :
    (∀ v, ok v = ⟨true, v, none⟩ ∧ resultInv (ok v)) ∧
    (∀ (env : ConstructorEnv) a args r, err env a args = .ok r →
        resultInv r) ∧
    (∀ (env : ConstructorEnv) expr tr r,
        tryCatch env expr tr = .sync r → resultInv r) ∧
    (∀ (env : ConstructorEnv) expr tr r,
        tryCatch env expr tr = .async (.resolves r) → resultInv r) := by
  refine ⟨fun v => ⟨rfl, Or.inl ⟨rfl, rfl⟩⟩, ?_, ?_, ?_⟩
  · intro env a args r h
    exact Or.inr (err_ok_shape env a args r h)
  · intro env expr tr r h
    cases expr with
    | ok res =>
        by_cases hd : isDeferredValue res
        · rw [tryCatch_ok_deferred env tr res hd] at h; cases h
        · rw [tryCatch_ok_sync env tr res (by simpa using hd)] at h
          cases h
          exact Or.inl ⟨rfl, rfl⟩
    | error e =>
        rw [tryCatch] at h
        cases hm : makeErrorResult env tr e with
        | ok r2 =>
            rw [hm] at h
            obtain ⟨e2, -, hr⟩ := makeErrorResult_ok env tr e r2 hm
            cases h
            rw [hr]
            exact Or.inr ⟨rfl, rfl, rfl⟩
        | error t => rw [hm] at h; cases h
  · intro env expr tr r h
    cases expr with
    | ok res =>
        by_cases hd : isDeferredValue res
        · rw [tryCatch_ok_deferred env tr res hd] at h
          cases h2 : settle res with
          | fulfilled w =>
              simp only [promiseThenCatch, h2] at h
              cases h
              exact Or.inl ⟨rfl, rfl⟩
          | rejected e =>
              simp only [promiseThenCatch, h2] at h
              cases hm : makeErrorResult env tr e with
              | ok r2 =>
                  rw [hm] at h
                  obtain ⟨e2, -, hr⟩ := makeErrorResult_ok env tr e r2 hm
                  cases h
                  rw [hr]
                  exact Or.inr ⟨rfl, rfl, rfl⟩
              | error t => rw [hm] at h; cases h
        · rw [tryCatch_ok_sync env tr res (by simpa using hd)] at h; cases h
    | error e =>
        rw [tryCatch] at h
        cases hm : makeErrorResult env tr e with
        | ok r2 => rw [hm] at h; cases h
        | error t => rw [hm] at h; cases h

/-- Witness for C9: the result of `err` at a string satisfies the
invariant. -/
theorem result_variant_invariant_witness :
    resultInv ⟨false, .undef, some (newError "m")⟩ :=
  result_variant_invariant.2.1 env0 (.string "m") []
    ⟨false, .undef, some (newError "m")⟩ rfl

/-- Claim C10: the transformer is never consulted on a success path —
with a non-deferred return value, or a deferred one that resolves, the
outcome is the same for every transformer — and on the throw and reject
paths the outcome depends on the transformer only through its value at
the single normalized error. -/
theorem tryCatch_transformer_only_on_failure (env : ConstructorEnv) :
    (∀ res tr1 tr2, hasThenProp res = false →
        tryCatch env (.ok res) tr1 = tryCatch env (.ok res) tr2) ∧
    (∀ res w tr1 tr2, settle res = .fulfilled w →
        tryCatch env (.ok res) tr1 = tryCatch env (.ok res) tr2) ∧
    (∀ e tr1 tr2, tr1 (normalizeThrown e) = tr2 (normalizeThrown e) →
        tryCatch env (.error e) tr1 = tryCatch env (.error e) tr2) ∧
    (∀ res e tr1 tr2, settle res = .rejected e →
        tr1 (normalizeThrown e) = tr2 (normalizeThrown e) →
        tryCatch env (.ok res) tr1 = tryCatch env (.ok res) tr2) := by
  refine ⟨?_, ?_, ?_, ?_⟩
  · intro res tr1 tr2 h
    have hd : isDeferredValue res = false := by
      rw [isDeferredValue_eq_hasThenProp, h]
    rw [tryCatch_ok_sync env tr1 res hd, tryCatch_ok_sync env tr2 res hd]
  · intro res w tr1 tr2 hw
    by_cases hd : isDeferredValue res
    · rw [tryCatch_ok_deferred env tr1 res hd,
        tryCatch_ok_deferred env tr2 res hd]
      simp only [promiseThenCatch, hw]
    · have hd' : isDeferredValue res = false := by simpa using hd
      rw [tryCatch_ok_sync env tr1 res hd', tryCatch_ok_sync env tr2 res hd']
  · intro e tr1 tr2 h
    rw [tryCatch, tryCatch, makeErrorResult_congr env tr1 tr2 e h]
  · intro res e tr1 tr2 hs h
    by_cases hd : isDeferredValue res
    · rw [tryCatch_ok_deferred env tr1 res hd,
        tryCatch_ok_deferred env tr2 res hd]
      simp only [promiseThenCatch, hs, makeErrorResult_congr env tr1 tr2 e h]
    · have hd' : isDeferredValue res = false := by simpa using hd
      rw [tryCatch_ok_sync env tr1 res hd', tryCatch_ok_sync env tr2 res hd']

/-- Witness for C10: a synchronous success gives the same outcome under
the default transformer and a replacing transformer. -/
theorem tryCatch_transformer_only_on_failure_witness :
    tryCatch env0 (.ok (.number 1)) defaultTransformer =
      tryCatch env0 (.ok (.number 1)) trAlt :=
  (tryCatch_transformer_only_on_failure env0).1 (.number 1)
    defaultTransformer trAlt rfl

end TsResult
